import Mathlib

/-!
# Verification of the zxvdu display server against its specification

Shallow embedding of the zxvdu command pipeline (Go sources: `main.go`,
`commands.go`, `network.go`, `graphics.go`, `buffers.go` and the unnamed
parts of the repository).  Pure Go functions become Lean functions; the
mutable globals (colour state, drawing mode, buffer indices, the texture
pool) become an explicit state record threaded through the executor.
Calls into the raylib backend are modelled as emitted outputs (draw
operations and reply lines), matching the specification's view that the
core hands the backend fully resolved draw instructions.
-/

namespace Zxvdu

/-! ## Go string helpers

`strings.Fields`, `strings.ToLower`, `strconv.Atoi` and the single-digit
use of `strconv.ParseInt(·, 16, 64)` are re-implemented over `List Char`
so that every parser below is executable by kernel reduction.  Inputs in
this development are ASCII, for which these models agree with Go.
-/

/-- ASCII lower-casing of one character (`strings.ToLower` on ASCII). -/
def charToLower (c : Char) : Char :=
  if 'A' ≤ c ∧ c ≤ 'Z' then Char.ofNat (c.toNat + 32) else c

/-- ASCII lower-casing of a string (`strings.ToLower` on ASCII input). -/
def goToLower (s : String) : String :=
  ⟨s.toList.map charToLower⟩

/-- Whitespace test used by `strings.Fields` (ASCII subset of `unicode.IsSpace`). -/
def isSpaceGo (c : Char) : Bool :=
  c = ' ' ∨ c = '\t' ∨ c = '\n' ∨ c = '\x0b' ∨ c = '\x0c' ∨ c = '\r'

/-- Splits a character list at whitespace, dropping empty runs (`strings.Fields`). -/
def fieldsAux : List Char → List Char → List (List Char)
  | [], [] => []
  | [], acc => [acc.reverse]
  | c :: cs, acc =>
      if isSpaceGo c then
        match acc with
        | [] => fieldsAux cs []
        | _ => acc.reverse :: fieldsAux cs []
      else fieldsAux cs (c :: acc)

/-- `strings.Fields`: split on runs of whitespace. -/
def goFields (s : String) : List String :=
  (fieldsAux s.toList []).map fun cs => ⟨cs⟩

/-- Decimal digit accumulation for `strconv.Atoi`. -/
def atoiDigits : List Char → Option Nat
  | [] => none
  | cs => cs.foldl (fun acc c =>
      match acc with
      | none => none
      | some n => if '0' ≤ c ∧ c ≤ '9' then some (n * 10 + (c.toNat - '0'.toNat)) else none)
      (some 0)

/-- `strconv.Atoi`: optional sign then decimal digits.  Overflow of Go's
64-bit int is not modelled; every integer in this development is small. -/
def goAtoi (s : String) : Option Int :=
  match s.toList with
  | [] => none
  | '+' :: cs => (atoiDigits cs).map Int.ofNat
  | '-' :: cs => (atoiDigits cs).map fun n => -(Int.ofNat n)
  | cs => (atoiDigits cs).map Int.ofNat

/-- Value of one hex digit, as accepted by `strconv.ParseInt(string(ch), 16, 64)`
applied to a single character. -/
def goParseHexDigit (c : Char) : Option Nat :=
  if '0' ≤ c ∧ c ≤ '9' then some (c.toNat - '0'.toNat)
  else if 'a' ≤ c ∧ c ≤ 'f' then some (c.toNat - 'a'.toNat + 10)
  else if 'A' ≤ c ∧ c ≤ 'F' then some (c.toNat - 'A'.toNat + 10)
  else none

/-! ## Palette (`main.go`) -/

/-- `rl.Color`: an RGBA quadruple. -/
structure Color where
  r : Nat
  g : Nat
  b : Nat
  a : Nat
deriving DecidableEq, Repr

/-- The fully transparent pixel `rl.Color{R:0,G:0,B:0,A:0}`. -/
def transparent : Color := ⟨0, 0, 0, 0⟩

/-- The ZX Spectrum 15-colour palette (`main.go`): indices 0–7 are the base
colours, 8–14 the bright variants (black has no bright variant). -/
def palette : List Color :=
  [ ⟨0, 0, 0, 255⟩,        -- 0: Black
    ⟨0, 0, 205, 255⟩,      -- 1: Blue
    ⟨205, 0, 0, 255⟩,      -- 2: Red
    ⟨205, 0, 205, 255⟩,    -- 3: Magenta
    ⟨0, 205, 0, 255⟩,      -- 4: Green
    ⟨0, 205, 205, 255⟩,    -- 5: Cyan
    ⟨205, 205, 0, 255⟩,    -- 6: Yellow
    ⟨205, 205, 205, 255⟩,  -- 7: White (normal)
    ⟨0, 0, 255, 255⟩,      -- 8: Bright Blue
    ⟨255, 0, 0, 255⟩,      -- 9: Bright Red
    ⟨255, 0, 255, 255⟩,    -- 10: Bright Magenta
    ⟨0, 255, 0, 255⟩,      -- 11: Bright Green
    ⟨0, 255, 255, 255⟩,    -- 12: Bright Cyan
    ⟨255, 255, 0, 255⟩,    -- 13: Bright Yellow
    ⟨255, 255, 255, 255⟩ ] -- 14: Bright White

/-! ## Texture pool (`buffers.go`, unnamed part_002)

A `TextureEntry` holds the decoded pixel buffer together with its declared
width/height and the in-use flag, mirroring the Go struct (the GPU handle's
content is the buffer; `rl.UnloadTexture` frees GPU memory but writes no
field of the `textures` table, so it is a no-op on this model of the table).
The global `textures [256]TextureEntry` array becomes a list of length 256.
-/

/-- One slot of the global texture array. -/
structure TextureEntry where
  pixels : List Color
  width : Int
  height : Int
  inUse : Bool
deriving DecidableEq, Repr

/-- The Go zero value `TextureEntry{}` (a freed/empty slot). -/
def emptyEntry : TextureEntry := ⟨[], 0, 0, false⟩

/-- The texture pool: the `textures` global (a list of length 256). -/
def Pool := List TextureEntry
deriving DecidableEq

/-- Scan of the `textures` array for a free slot, carrying the index of the
head entry (the loop body of `findFirstFreeTextureSlot`). -/
def findFreeAux : List TextureEntry → Nat → Int
  | [], _ => -1
  | e :: rest, i => if e.inUse then findFreeAux rest (i + 1) else Int.ofNat i

/-- `findFirstFreeTextureSlot`: index of the first slot with `inUse == false`,
or `-1` when every slot is taken. -/
def findFirstFreeTextureSlot (pool : List TextureEntry) : Int :=
  findFreeAux pool 0

/-- The palette-index part of the pixel-decoding loop of
`CreateTextureFromPixelData` (`buffers.go`): `@`, `%` and the backquote are
aliases for indices 7, 15 and 0; anything else must be one hex digit. -/
def hexIndexOfChar (ch : Char) : Except String Nat :=
  if ch = '@' then .ok 7
  else if ch = '%' then .ok 15
  else if ch = Char.ofNat 96 then .ok 0   -- the backquote alias for black
  else match goParseHexDigit ch with
    | none => .error "invalid character - must be hex digit or one of the aliases"
    | some v => if v > 15 then .error "hex value out of range" else .ok v

/-- One iteration of the pixel-decoding loop of `CreateTextureFromPixelData`
(`buffers.go`): `.` is a fully transparent pixel, otherwise the decoded
index — clamped to the last palette entry when at or above `len(palette)` —
selects the pixel's colour. -/
def pixelOfChar (ch : Char) : Except String Color :=
  if ch = '.' then .ok transparent
  else match hexIndexOfChar ch with
    | .error e => .error e
    | .ok idx =>
        .ok (palette.getD
          (if idx ≥ palette.length then palette.length - 1 else idx) transparent)

/-- Decodes a whole payload through `pixelOfChar`, failing at the first bad
character (the loop of `CreateTextureFromPixelData`). -/
def decodePixels (pixelData : String) : Except String (List Color) :=
  pixelData.toList.mapM pixelOfChar

/-- `CreateTextureFromPixelData` (`buffers.go`): allocate the first free slot,
validate `len(pixelData) == width*height`, decode the payload, and store the
new entry in that slot.  Returns the slot index and the updated pool. -/
def CreateTextureFromPixelData (pool : List TextureEntry) (pixelData : String)
    (width height : Int) : Except String (Nat × List TextureEntry) :=
  match findFirstFreeTextureSlot pool with
  | .negSucc _ => .error "no free texture slots"
  | .ofNat slot =>
    if (pixelData.length : Int) ≠ width * height then
      .error "pixel data length does not match dimensions"
    else match decodePixels pixelData with
      | .error e => .error e
      | .ok imgData =>
          .ok (slot, pool.set slot ⟨imgData, width, height, true⟩)

/-- `createTextureFromPixelData` (unnamed part_002): the strict variant used
by the update path — validates the length and requires every character to be
a hex digit (no aliases), returning only the decoded buffer. -/
def createTextureFromPixelData (pixelData : String) (width height : Int) :
    Except String (List Color) :=
  if (pixelData.length : Int) ≠ width * height then
    .error "pixel data length does not match dimensions"
  else
    pixelData.toList.mapM fun ch =>
      match goParseHexDigit ch with
      | none => .error "invalid hex digit"
      | some v =>
          if v > 15 then .error "hex value out of range"
          else
            let idx := if v ≥ palette.length then palette.length - 1 else v
            .ok (palette.getD idx transparent)

/-- `updateTextureFromPixelData` (unnamed part_002): decode first, and only
on success replace the slot's entry in place (the old texture is unloaded).
The Go code indexes `textures[slot]` without a bounds check; `.none` models
the runtime panic an out-of-range slot causes. -/
def updateTextureFromPixelData (pool : List TextureEntry) (slot : Int)
    (pixelData : String) (width height : Int) :
    Option (Except String (List TextureEntry)) :=
  match createTextureFromPixelData pixelData width height with
  | .error e => some (.error e)
  | .ok imgData =>
      if slot < 0 ∨ slot ≥ (pool.length : Int) then none  -- Go panic: index out of range
      else some (.ok (pool.set slot.toNat ⟨imgData, width, height, true⟩))

/-- `deleteTexture` (unnamed part_002): bounds- and in-use-checked release of
one slot, resetting it to the zero value. -/
def deleteTexture (pool : List TextureEntry) (slot : Int) :
    Except String (List TextureEntry) :=
  if slot < 0 ∨ slot ≥ (pool.length : Int) then .error "texture number out of bounds"
  else if ¬ (pool.getD slot.toNat emptyEntry).inUse then .error "texture slot is not in use"
  else .ok (pool.set slot.toNat emptyEntry)

/-- The `"set"` case of `handleTexCommand` (`network.go`, the BufferSystem
variant): after validating the parameter count, the payload, and that the
slot is in range and in use, it unloads the old texture and calls
`CreateTextureFromPixelData` — which allocates a fresh first-free slot —
and on a decoding failure it resets `textures[params[0]]` to the zero value.
Returns the reported slot (or error) and the resulting pool. -/
def handleTexCommandSet (pool : List TextureEntry) (params : List Int)
    (payload : String) : Except String Nat × List TextureEntry :=
  match params with
  | s :: width :: height :: _ =>
    if payload = "" then (.error "no pixel data provided", pool)
    else if s < 0 ∨ s ≥ (pool.length : Int) ∨ ¬ (pool.getD s.toNat emptyEntry).inUse then
      (.error "invalid texture number", pool)
    else
      -- rl.UnloadTexture(textures[s].texture): frees the GPU resource only;
      -- no field of the textures table changes here.
      match CreateTextureFromPixelData pool payload width height with
      | .error e => (.error e, pool.set s.toNat emptyEntry)
      | .ok (slot, pool2) => (.ok slot, pool2)
  | _ => (.error "invalid texture parameters", pool)

/-- An output of the executor: a reply line written to the originating
connection, or a call into the rendering backend. -/
inductive Output where
  | reply (line : String)
  | clearFlip
  | clearLayer
  | copyOp (bufferType : String) (src dst : Int)
  | texPaintOp (x y : Int) (slot : Int)
  | raster (kind : String) (args : List Int) (colorIndex : Int) (erase : Bool)
deriving DecidableEq, Repr

/-- `handleTexAdd` (the handlers file of the flat-globals build): find a free
slot, decode via the strict `createTextureFromPixelData`, store the entry and
reply with the slot number; each failure is reported as an `ERROR 002x` line. -/
def handleTexAdd (pool : List TextureEntry) (params : List Int)
    (payload : String) : List Output × List TextureEntry :=
  match params with
  | width :: height :: _ =>
    match findFirstFreeTextureSlot pool with
    | .negSucc _ => ([.reply "ERROR 0022 : no free texture slots"], pool)
    | .ofNat slot =>
      match createTextureFromPixelData payload width height with
      | .error e => ([.reply ("ERROR 0023 : " ++ e)], pool)
      | .ok imgData =>
          ([.reply (toString slot)],
           pool.set slot ⟨imgData, width, height, true⟩)
  | _ => ([.reply "ERROR 0021 : invalid texture parameters"], pool)

/-! ## Protocol codec (`commands.go`) -/

/-- `DrawCommand`: a parsed drawing or control instruction.  The originating
connection (`Conn`) is not part of the data model here; replies appear as
`Output.reply` values instead. -/
structure DrawCommand where
  Cmd : String
  Params : List Int
  Mode : String
  Str : String
deriving DecidableEq, Repr

/-- ASCII upper-casing of one character (`strings.ToUpper` on ASCII). -/
def charToUpper (c : Char) : Char :=
  if 'a' ≤ c ∧ c ≤ 'z' then Char.ofNat (c.toNat - 32) else c

/-- ASCII upper-casing of a string. -/
def goToUpper (s : String) : String :=
  ⟨s.toList.map charToUpper⟩

/-- The `convertToken` helper of `parseRegularCommand`: `_` is the sentinel
`-1`, anything else must parse as a decimal integer. -/
def convertToken (token : String) : Option Int :=
  if token = "_" then some (-1) else goAtoi token

/-- Maps `convertToken` across a list of tokens, failing on the first bad one. -/
def convertTokens : List String → Except String (List Int)
  | [] => .ok []
  | t :: ts =>
    match convertToken t with
    | none => .error ("invalid parameter " ++ t)
    | some v =>
      match convertTokens ts with
      | .error e => .error e
      | .ok vs => .ok (v :: vs)

/-- Maps `strconv.Atoi` across a list of tokens (shape parameters take no
`_` placeholder in this parser). -/
def atoiTokens : List String → Except String (List Int)
  | [] => .ok []
  | t :: ts =>
    match goAtoi t with
    | none => .error ("invalid parameter " ++ t)
    | some v =>
      match atoiTokens ts with
      | .error e => .error e
      | .ok vs => .ok (v :: vs)

/-- `parseQueryCommand`: the fields with the trailing `?` already removed;
the first remaining token (original case) becomes the command of a
`Mode = "query"` command. -/
def parseQueryCommand (fields : List String) : Except String DrawCommand :=
  match fields with
  | [] => .error "empty query command"
  | f :: _ => .ok ⟨f, [], "query", ""⟩

/-- `parseTextureCommand`: `tex add|set|del|paint …` with fixed arities;
`add`/`set` carry the raw payload string and its declared width/height.
(The Go code guards `add` only by `len(fields) < 4` and `set` only by
`len(fields) < 5` before indexing up to `fields[startIdx+2]`, so a line one
token short of the full arity panics; that unreachable-by-intent case is
folded into the insufficient-parameters error branch here.) -/
def parseTextureCommand (fields : List String) : Except String DrawCommand :=
  match fields with
  | _ :: sub :: rest =>
    let mode := goToLower sub
    if mode = "add" ∨ mode = "set" then
      match mode, rest with
      | "add", payload :: w :: h :: _ =>
        (match goAtoi w, goAtoi h with
         | some width, some height => .ok ⟨"tex", [width, height], "add", payload⟩
         | none, _ => .error "invalid width"
         | _, none => .error "invalid height")
      | "set", nTok :: payload :: w :: h :: _ =>
        (match goAtoi nTok with
         | none => .error "invalid texture number"
         | some n =>
           match goAtoi w, goAtoi h with
           | some width, some height => .ok ⟨"tex", [n, width, height], "set", payload⟩
           | none, _ => .error "invalid width"
           | _, none => .error "invalid height")
      | "set", _ => .error "insufficient parameters for tex set"
      | _, _ => .error "insufficient parameters for tex add or set"
    else if mode = "del" then
      match rest with
      | nTok :: _ =>
        (match goAtoi nTok with
         | none => .error "invalid texture number"
         | some n => .ok ⟨"tex", [n], "del", ""⟩)
      | _ => .error "texture number required"
    else if mode = "paint" then
      match rest with
      | xTok :: yTok :: nTok :: _ =>
        (match goAtoi xTok, goAtoi yTok, goAtoi nTok with
         | some x, some y, some n => .ok ⟨"tex", [x, y, n], "paint", ""⟩
         | none, _, _ => .error "invalid x coordinate"
         | _, none, _ => .error "invalid y coordinate"
         | _, _, none => .error "invalid texture number")
      | _ => .error "insufficient parameters for tex paint"
    else .error ("unknown texture command mode: " ++ mode)
  | _ => .error "invalid texture command"

/-- `parsePaintCommand`: `paint flip`, `paint layer`, `paint N`, and the
no-argument default to buffer 0. -/
def parsePaintCommand (fields : List String) : Except String DrawCommand :=
  match fields with
  | [_, arg] =>
    if goToLower arg = "flip" then .ok ⟨"paint", [], "flip", ""⟩
    else if goToLower arg = "layer" then .ok ⟨"paint", [], "layer", ""⟩
    else
      match goAtoi arg with
      | none => .error "paint parameter must be number, flip, or layer"
      | some n => .ok ⟨"paint", [n], "", ""⟩
  | _ => .ok ⟨"paint", [0], "", ""⟩

/-- `parseShapeCommand`: optional trailing mode letter (S/F/T), then the two
accepted numeric arities, a missing trailing colour defaulting to `-1`. -/
def parseShapeCommand (cmd : String) (fields : List String) :
    Except String DrawCommand :=
  let tokenCount := fields.length - 1
  let lastTok := fields.getLast?.getD ""
  let lastIsMode :=
    goToUpper lastTok = "S" ∨ goToUpper lastTok = "F" ∨ goToUpper lastTok = "T"
  if tokenCount > 0 ∧ ¬ lastIsMode ∧ goAtoi lastTok = none then
    .error (cmd ++ " mode must be S, F, or T")
  else
    let mode := if tokenCount > 0 ∧ lastIsMode then goToUpper lastTok else "F"
    let tokenCount := if tokenCount > 0 ∧ lastIsMode then tokenCount - 1 else tokenCount
    match atoiTokens ((fields.drop 1).take tokenCount) with
    | .error e => .error e
    | .ok params =>
      if cmd = "rect" then
        if params.length = 4 then .ok ⟨cmd, params ++ [-1], mode, ""⟩
        else if params.length = 5 then .ok ⟨cmd, params, mode, ""⟩
        else .error "rect requires 4 or 5 numeric parameters, plus optional mode"
      else if cmd = "circle" then
        if params.length = 3 then .ok ⟨cmd, params ++ [-1], mode, ""⟩
        else if params.length = 4 then .ok ⟨cmd, params, mode, ""⟩
        else .error "circle requires 3 or 4 numeric parameters, plus optional mode"
      else
        if params.length = 6 then .ok ⟨cmd, params ++ [-1], mode, ""⟩
        else if params.length = 7 then .ok ⟨cmd, params, mode, ""⟩
        else .error "triangle requires 6 or 7 numeric parameters, plus optional mode"

/-- `parseRegularCommand`: the plain numeric-argument commands, with `_`
accepted as the sentinel, and the shape commands routed to
`parseShapeCommand`. -/
def parseRegularCommand (cmd : String) (fields : List String) :
    Except String DrawCommand :=
  if cmd = "plot" ∨ cmd = "line" ∨ cmd = "lineto" ∨ cmd = "ink" ∨ cmd = "paper" ∨
     cmd = "bright" ∨ cmd = "colour" ∨ cmd = "cls" ∨ cmd = "flip" ∨ cmd = "layer" then
    match convertTokens (fields.drop 1) with
    | .error e => .error e
    | .ok params => .ok ⟨cmd, params, "", ""⟩
  else if cmd = "rect" ∨ cmd = "circle" ∨ cmd = "triangle" then
    parseShapeCommand cmd fields
  else .error ("unknown command " ++ cmd)

/-- `parseCommand` (`commands.go`): one input line to one `DrawCommand` or a
parse error.  A line whose last token is `?` becomes a `Mode = "query"`
command; `tex` and `paint` have dedicated sub-parsers. -/
def parseCommand (line : String) : Except String DrawCommand :=
  match goFields line with
  | [] => .error "empty command"
  | f0 :: rest =>
    let fields := f0 :: rest
    let cmd := goToLower f0
    if fields.getLast (by simp) = "?" then
      parseQueryCommand (fields.dropLast)
    else if cmd = "tex" then
      parseTextureCommand fields
    else if cmd = "paint" then
      parsePaintCommand fields
    else
      parseRegularCommand cmd fields

/-! ## Network reader (`network.go`)

Per accepted connection, `handleDrawingCommandConn` reads one line at a
time: a parse error is written straight back to the connection, a parsed
command is pushed onto the shared channel `commandChan`, a buffered Go
channel of capacity 100.  A Go send on a full buffered channel **blocks**
the sending goroutine; `ReaderOutcome.blocked` models that suspension (no
reply is written and the command is neither enqueued nor dropped).
-/

/-- The capacity of `commandChan` (`make(chan DrawCommand, 100)`). -/
def commandChanCapacity : Nat := 100

/-- What processing one input line does to the reader goroutine. -/
inductive ReaderOutcome where
  | parseError (msg : String)
  | enqueued
  | blocked
deriving DecidableEq, Repr

/-- One iteration of the scanner loop of `handleDrawingCommandConn`:
parse the line, reply on a parse error, otherwise perform the channel send
`commandChan <- cmd` (which blocks when the queue holds 100 commands). -/
def handleLine (queue : List DrawCommand) (line : String) :
    List DrawCommand × ReaderOutcome :=
  match parseCommand line with
  | .error e => (queue, .parseError e)
  | .ok cmd =>
    if queue.length < commandChanCapacity then (queue ++ [cmd], .enqueued)
    else (queue, .blocked)

/-! ## Executor state (`main.go` globals) -/

/-- Base resolution constants. -/
def BaseWidth : Int := 256

/-- Base resolution constants. -/
def BaseHeight : Int := 192

/-- Number of flip buffers. -/
def numFlipBuffers : Int := 8

/-- Number of layer buffers. -/
def numLayerBuffers : Int := 8

/-- The mutable globals of the server gathered into one record: colour
state, drawing-mode state, buffer indices, resolution/zoom settings, the
`lineto` pen, and the texture pool. -/
structure ExecState where
  defaultInk : Int
  defaultPaper : Int
  defaultBright : Bool
  currentDrawingMode : String
  currentTarget : String
  eraserMode : Bool
  activeFlipBuffer : Int
  activeLayerBuffer : Int
  activeOffscreenFlip : Int
  activeOffscreenLayer : Int
  graphicsMult : Int
  zoomFactor : Int
  currentX : Int
  currentY : Int
  textures : List TextureEntry
deriving DecidableEq, Repr

/-- The initial globals of `main.go`: ink 7 (white), paper 0 (black), bright
off, flip/onscreen drawing, all indices 0, multiplier and zoom 1, pen at the
origin, all 256 texture slots free. -/
def initState : ExecState :=
  ⟨7, 0, false, "flip", "onscreen", false, 0, 0, 0, 0, 1, 1, 0, 0,
   List.replicate 256 emptyEntry⟩

/-! ## Palette/colour resolver (`graphics.go`) -/

/-- `effectiveInkColor`: black has no bright variant; otherwise the bright
flag adds 7 to the base ink value. -/
def effectiveInkColor (s : ExecState) : Int :=
  if s.defaultInk = 0 then 0
  else if s.defaultBright then s.defaultInk + 7
  else s.defaultInk

/-- `effectivePaperColor`: the same rule applied to the paper value. -/
def effectivePaperColor (s : ExecState) : Int :=
  if s.defaultPaper = 0 then 0
  else if s.defaultBright then s.defaultPaper + 7
  else s.defaultPaper

/-- `boolToInt`. -/
def boolToInt (b : Bool) : Int := if b then 1 else 0

/-! ## Query resolution and command execution (`network.go`) -/

/-- `processQuery`: format one response line from the process-wide state. -/
def processQuery (s : ExecState) (cmd : String) : String :=
  if cmd = "colour" then
    toString s.defaultInk ++ " " ++ toString s.defaultPaper ++ " " ++
      toString (boolToInt s.defaultBright)
  else if cmd = "graphics" then toString s.graphicsMult
  else if cmd = "zoom" then toString s.zoomFactor
  else if cmd = "ink" then toString s.defaultInk
  else if cmd = "paper" then toString s.defaultPaper
  else if cmd = "bright" then toString (boolToInt s.defaultBright)
  else if cmd = "host" then "zxvdu v1.0"
  else if cmd = "flip" then toString s.activeFlipBuffer
  else if cmd = "layer" then toString s.activeLayerBuffer
  else if cmd = "paint" then s.currentDrawingMode
  else if cmd = "paint_target" then s.currentTarget
  else if cmd = "eraser" then toString (boolToInt s.eraserMode)
  else "unknown query"

/-- `handleFlip`: no argument toggles the active flip buffer between 0 and 1;
one argument selects that buffer when it lies in `[0, numFlipBuffers)` and is
silently ignored otherwise. -/
def handleFlip (s : ExecState) (params : List Int) : ExecState :=
  match params with
  | [] => { s with activeFlipBuffer := if s.activeFlipBuffer = 0 then 1 else 0 }
  | [n] => if 0 ≤ n ∧ n < numFlipBuffers then { s with activeFlipBuffer := n } else s
  | _ => s

/-- `handleLayer`: the same selection logic for layer buffers. -/
def handleLayer (s : ExecState) (params : List Int) : ExecState :=
  match params with
  | [] => { s with activeLayerBuffer := if s.activeLayerBuffer = 0 then 1 else 0 }
  | [n] => if 0 ≤ n ∧ n < numLayerBuffers then { s with activeLayerBuffer := n } else s
  | _ => s

/-- `handlePaint`: `paint flip` selects flip mode and clears eraser mode;
`paint layer` selects layer mode (leaving eraser mode as it is); anything
else is a no-op. -/
def handlePaint (s : ExecState) (mode : String) : ExecState :=
  if goToLower mode = "flip" then
    { s with currentDrawingMode := "flip", eraserMode := false }
  else if goToLower mode = "layer" then
    { s with currentDrawingMode := "layer" }
  else s

/-- `handlePaintTarget`: select the onscreen or offscreen duplication. -/
def handlePaintTarget (s : ExecState) (mode : String) : ExecState :=
  if mode = "onscreen" ∨ mode = "offscreen" then { s with currentTarget := mode } else s

/-- `copyBufferFromOffscreen` wrapped by `handlePaintCopy`: an out-of-range
index or unknown buffer type yields an `ERROR 0030` reply; otherwise the
full-buffer blit is performed by the backend.  (The Go handler indexes
`cmd.Params[0]`/`[1]` unguarded; the parser embedded here never emits
`paint_copy`, so the missing-parameter panic is unreachable and `getD 0`
stands in for it.) -/
def handlePaintCopy (s : ExecState) (mode : String) (params : List Int) :
    ExecState × List Output :=
  let src := params.getD 0 0
  let dst := params.getD 1 0
  if src < 0 ∨ dst < 0 ∨ src ≥ numFlipBuffers ∨ dst ≥ numFlipBuffers then
    (s, [.reply "ERROR 0030 : buffer index out of range"])
  else if mode = "flip" ∨ mode = "layer" then
    (s, [.copyOp mode src dst])
  else (s, [.reply "ERROR 0030 : invalid buffer type"])

/-- `handleCLS`: ask the backend to clear the currently targeted buffer —
to the effective paper colour in flip mode, to full transparency in layer
mode. -/
def handleCLS (s : ExecState) : ExecState × List Output :=
  if s.currentDrawingMode = "flip" then (s, [.clearFlip]) else (s, [.clearLayer])

/-- `handleGraphics`: a multiplier of at least 1 is stored, every buffer is
recreated (cleared by the backend) and all four active indices reset to 0. -/
def handleGraphics (s : ExecState) (params : List Int) : ExecState :=
  match params with
  | [n] =>
    if n ≥ 1 then
      { s with graphicsMult := n, activeFlipBuffer := 0, activeLayerBuffer := 0,
               activeOffscreenFlip := 0, activeOffscreenLayer := 0 }
    else s
  | _ => s

/-- `handleZoom`: the new zoom factor is applied only when the scaled
internal resolution fits within the monitor bounds. -/
def handleZoom (s : ExecState) (monW monH : Int) (params : List Int) : ExecState :=
  match params with
  | [n] =>
    if n ≥ 1 ∧ BaseWidth * s.graphicsMult * n ≤ monW ∧
       BaseHeight * s.graphicsMult * n ≤ monH then
      { s with zoomFactor := n }
    else s
  | _ => s

/-- `handleTexCommand` (`network.go`, BufferSystem variant): dispatch on the
texture sub-mode.  `add` allocates through `CreateTextureFromPixelData`;
`set` is `handleTexCommandSet`; `del` validates and zeroes the slot;
`paint` validates the slot and blits it via the backend.  The returned
slot/error value is discarded by the `processCommands` call site. -/
def handleTexCommand (pool : List TextureEntry) (mode : String)
    (params : List Int) (payload : String) :
    Except String Int × List TextureEntry × List Output :=
  if mode = "add" then
    match params with
    | width :: height :: _ =>
      if payload = "" then (.error "no pixel data provided", pool, [])
      else
        match CreateTextureFromPixelData pool payload width height with
        | .error e => (.error e, pool, [])
        | .ok (slot, pool2) => (.ok (Int.ofNat slot), pool2, [])
    | _ => (.error "invalid texture parameters", pool, [])
  else if mode = "set" then
    match handleTexCommandSet pool params payload with
    | (.error e, pool2) => (.error e, pool2, [])
    | (.ok slot, pool2) => (.ok (Int.ofNat slot), pool2, [])
  else if mode = "del" then
    match params with
    | n :: _ =>
      if n < 0 ∨ n ≥ (pool.length : Int) ∨ ¬ (pool.getD n.toNat emptyEntry).inUse then
        (.error "invalid texture number", pool, [])
      else (.ok n, pool.set n.toNat emptyEntry, [])
    | _ => (.error "texture number required", pool, [])
  else if mode = "paint" then
    match params with
    | x :: y :: n :: _ =>
      if n < 0 ∨ n ≥ (pool.length : Int) ∨ ¬ (pool.getD n.toNat emptyEntry).inUse then
        (.error "invalid texture number", pool, [])
      else (.ok n, pool, [.texPaintOp x y n])
    | _ => (.error "invalid texture paint parameters", pool, [])
  else (.error "unknown texture command mode", pool, [])

/-- Colour resolution shared by every primitive handler of
`updateActiveBuffer` (`graphics.go`): an absent or sentinel (-1) colour
argument resolves to the effective ink at execution time. -/
def resolveColorIndex (s : ExecState) (params : List Int) (idx : Nat) : Int :=
  let cIndex := if params.length ≥ idx + 1 then params.getD idx (-1) else -1
  if cIndex = -1 then effectiveInkColor s else cIndex

/-- Whether the eraser override applies: in layer mode with eraser mode on,
primitives paint full transparency instead of a palette colour. -/
def eraseActive (s : ExecState) : Bool :=
  s.currentDrawingMode = "layer" ∧ s.eraserMode

/-- `updateActiveBuffer` (`graphics.go`): resolve the colour, emit the
primitive for the backend (the recorded `colorIndex` is the index Go looks
up in `palette`), and for `lineto` consume and update the pen. -/
def updateActiveBuffer (s : ExecState) (c : DrawCommand) : ExecState × List Output :=
  if c.Cmd = "plot" then
    match c.Params with
    | x :: y :: _ =>
      (s, [.raster "pixel" [x, y] (resolveColorIndex s c.Params 2) (eraseActive s)])
    | _ => (s, [])
  else if c.Cmd = "line" then
    match c.Params with
    | x1 :: y1 :: x2 :: y2 :: _ =>
      (s, [.raster "line" [x1, y1, x2, y2] (resolveColorIndex s c.Params 4) (eraseActive s)])
    | _ => (s, [])
  else if c.Cmd = "lineto" then
    match c.Params with
    | x :: y :: _ =>
      ({ s with currentX := x, currentY := y },
       [.raster "line" [s.currentX, s.currentY, x, y]
          (resolveColorIndex s c.Params 2) (eraseActive s)])
    | _ => (s, [])
  else if c.Cmd = "circle" then
    match c.Params with
    | x :: y :: r :: _ =>
      (s, [.raster (if goToUpper c.Mode = "S" then "circleLines" else "circle")
             [x, y, r] (resolveColorIndex s c.Params 3) (eraseActive s)])
    | _ => (s, [])
  else if c.Cmd = "rect" then
    match c.Params with
    | x :: y :: w :: h :: _ =>
      (s, [.raster (if goToUpper c.Mode = "S" then "rectLines" else "rect")
             [x, y, w, h] (resolveColorIndex s c.Params 4) (eraseActive s)])
    | _ => (s, [])
  else if c.Cmd = "triangle" then
    match c.Params with
    | x1 :: y1 :: x2 :: y2 :: x3 :: y3 :: _ =>
      (s, [.raster (if goToUpper c.Mode = "S" then "triangleLines" else "triangle")
             [x1, y1, x2, y2, x3, y3] (resolveColorIndex s c.Params 6) (eraseActive s)])
    | _ => (s, [])
  else (s, [])

/-- One step of `processCommands` (`network.go`): execute one dequeued
command against the state.  A `Mode = "query"` command is answered from the
state without mutating anything; the remaining commands dispatch exactly as
the Go switch does.  `monW`/`monH` are the monitor bounds read by
`handleZoom`. -/
def processOne (monW monH : Int) (s : ExecState) (c : DrawCommand) :
    ExecState × List Output :=
  if c.Mode = "query" then (s, [.reply (processQuery s c.Cmd)])
  else if c.Cmd = "cls" then handleCLS s
  else if c.Cmd = "flip" then (handleFlip s c.Params, [])
  else if c.Cmd = "layer" then (handleLayer s c.Params, [])
  else if c.Cmd = "paint" then (handlePaint s c.Mode, [])
  else if c.Cmd = "paint_target" then (handlePaintTarget s c.Mode, [])
  else if c.Cmd = "paint_copy" then handlePaintCopy s c.Mode c.Params
  else if c.Cmd = "ink" then
    match c.Params with
    | [n] =>
      ({ s with defaultInk := n,
                eraserMode := if s.currentDrawingMode = "layer" then false
                              else s.eraserMode }, [])
    | _ => (s, [])
  else if c.Cmd = "paper" then
    match c.Params with
    | [n] => ({ s with defaultPaper := n }, [])
    | _ => (s, [])
  else if c.Cmd = "bright" then
    match c.Params with
    | [n] => ({ s with defaultBright := n = 1 }, [])
    | _ => (s, [])
  else if c.Cmd = "colour" then
    match c.Params with
    | [i, p, b] =>
      ({ s with defaultInk := i, defaultPaper := p, defaultBright := b = 1,
                eraserMode := if s.currentDrawingMode = "layer" then false
                              else s.eraserMode }, [])
    | _ => (s, [])
  else if c.Cmd = "graphics" then (handleGraphics s c.Params, [])
  else if c.Cmd = "zoom" then (handleZoom s monW monH c.Params, [])
  else if c.Cmd = "eraser" then
    (if s.currentDrawingMode = "layer" then { s with eraserMode := true } else s, [])
  else if c.Cmd = "tex" then
    match handleTexCommand s.textures c.Mode c.Params c.Str with
    | (_, pool2, outs) => ({ s with textures := pool2 }, outs)
  else updateActiveBuffer s c

/-! ## Surface set (`buffers.go`, BufferSystem variant)

A surface is its pixel content; the `BufferSystem` owns the two parallel
arrays of 8 surfaces (the Go code stores `*rl.RenderTexture2D` pointers and
swaps the pointers, which is content swapping in this model). -/

/-- A drawing surface, identified with its pixel content. -/
def Surface := List Color
deriving DecidableEq

/-- `BufferSystem`: the flip and layer surface arrays and the active draw
target index. -/
structure BufferSystem where
  flipBuffers : List Surface
  layerBuffers : List Surface
  activeTarget : Nat
deriving DecidableEq

/-- Exchange of two list positions, as performed by the parallel assignment
`bs.flipBuffers[0], bs.flipBuffers[n] = bs.flipBuffers[n], bs.flipBuffers[0]`. -/
def listSwap (l : List Surface) (i j : Nat) : List Surface :=
  (l.set i (l.getD j [])).set j (l.getD i [])

/-- `SwapFlip` (`buffers.go`): exchange flip buffer `n` with buffer 0 (the
visible surface); `n < 1` (index 0 included) and `n ≥ len(flipBuffers)` are
rejected with an error. -/
def SwapFlip (bs : BufferSystem) (n : Int) : Except String BufferSystem :=
  if n < 1 ∨ n ≥ (bs.flipBuffers.length : Int) then .error "invalid buffer index"
  else .ok { bs with flipBuffers := listSwap bs.flipBuffers 0 n.toNat }

/-- `SwapLayer` (`buffers.go`): the same exchange on the layer array. -/
def SwapLayer (bs : BufferSystem) (n : Int) : Except String BufferSystem :=
  if n < 1 ∨ n ≥ (bs.layerBuffers.length : Int) then .error "invalid buffer index"
  else .ok { bs with layerBuffers := listSwap bs.layerBuffers 0 n.toNat }

/-- Modelled from the spec: the executor wiring of the `flip n` command to
`swapToVisible(flip, n)` — that is, to `BufferSystem.SwapFlip` — in the
BufferSystem build.  The dispatcher of that build is not among the source
files (only the older selection-based `handleFlip` is); per the spec,
`flip n` exchanges surface `n` with surface 0 of the flip kind. -/
def execFlipN (bs : BufferSystem) (n : Int) : Except String BufferSystem :=
  SwapFlip bs n

/-! ## Invariants -/

/-- The colour-state invariant of the data model: ink and paper lie in
`[0,7]` (the bright flag is a `Bool` and needs no predicate). -/
def ColorInv (s : ExecState) : Prop :=
  0 ≤ s.defaultInk ∧ s.defaultInk ≤ 7 ∧ 0 ≤ s.defaultPaper ∧ s.defaultPaper ≤ 7

/-- A command whose colour-state arguments (if any) are within the ZX
ranges: the executor stores these arguments without validating them, so the
colour invariant is only preserved under this hypothesis. -/
def colorArgsInRange (c : DrawCommand) : Prop :=
  (c.Cmd = "ink" → ∀ n, c.Params = [n] → 0 ≤ n ∧ n ≤ 7) ∧
  (c.Cmd = "paper" → ∀ n, c.Params = [n] → 0 ≤ n ∧ n ≤ 7) ∧
  (c.Cmd = "colour" → ∀ i p b, c.Params = [i, p, b] → 0 ≤ i ∧ i ≤ 7 ∧ 0 ≤ p ∧ p ≤ 7)

end Zxvdu

namespace Zxvdu

/-! ## Theorems -/

/-- Transport of the colour invariant along equal ink/paper fields. -/
theorem ColorInv.of_eq {s t : ExecState} (h : ColorInv s)
    (h1 : t.defaultInk = s.defaultInk) (h2 : t.defaultPaper = s.defaultPaper) :
    ColorInv t := by
  unfold ColorInv at *
  rw [h1, h2]
  exact h

/-- `handleFlip` touches only the active flip index. -/
theorem handleFlip_colorFields (s : ExecState) (ps : List Int) :
    (handleFlip s ps).defaultInk = s.defaultInk ∧
    (handleFlip s ps).defaultPaper = s.defaultPaper := by
  unfold handleFlip
  rcases ps with _ | ⟨n, _ | ⟨m, t⟩⟩ <;> simp <;> split_ifs <;> simp

/-- `handleLayer` touches only the active layer index. -/
theorem handleLayer_colorFields (s : ExecState) (ps : List Int) :
    (handleLayer s ps).defaultInk = s.defaultInk ∧
    (handleLayer s ps).defaultPaper = s.defaultPaper := by
  unfold handleLayer
  rcases ps with _ | ⟨n, _ | ⟨m, t⟩⟩ <;> simp <;> split_ifs <;> simp

/-- `handlePaint` touches only the drawing mode and the eraser flag. -/
theorem handlePaint_colorFields (s : ExecState) (mode : String) :
    (handlePaint s mode).defaultInk = s.defaultInk ∧
    (handlePaint s mode).defaultPaper = s.defaultPaper := by
  unfold handlePaint
  split_ifs <;> simp

/-- `handlePaintTarget` touches only the target selector. -/
theorem handlePaintTarget_colorFields (s : ExecState) (mode : String) :
    (handlePaintTarget s mode).defaultInk = s.defaultInk ∧
    (handlePaintTarget s mode).defaultPaper = s.defaultPaper := by
  unfold handlePaintTarget
  split_ifs <;> simp

/-- `handleGraphics` touches only the multiplier and the buffer indices. -/
theorem handleGraphics_colorFields (s : ExecState) (ps : List Int) :
    (handleGraphics s ps).defaultInk = s.defaultInk ∧
    (handleGraphics s ps).defaultPaper = s.defaultPaper := by
  unfold handleGraphics
  rcases ps with _ | ⟨n, _ | ⟨m, t⟩⟩ <;> simp <;> split_ifs <;> simp

/-- `handleZoom` touches only the zoom factor. -/
theorem handleZoom_colorFields (s : ExecState) (monW monH : Int) (ps : List Int) :
    (handleZoom s monW monH ps).defaultInk = s.defaultInk ∧
    (handleZoom s monW monH ps).defaultPaper = s.defaultPaper := by
  unfold handleZoom
  rcases ps with _ | ⟨n, _ | ⟨m, t⟩⟩ <;> simp <;> split_ifs <;> simp

/-- `updateActiveBuffer` only emits backend primitives and moves the pen. -/
theorem updateActiveBuffer_colorFields (s : ExecState) (c : DrawCommand) :
    (updateActiveBuffer s c).1.defaultInk = s.defaultInk ∧
    (updateActiveBuffer s c).1.defaultPaper = s.defaultPaper := by
  unfold updateActiveBuffer
  split_ifs <;>
    rcases c.Params with _ | ⟨a, _ | ⟨b, _ | ⟨d, _ | ⟨e, _ | ⟨f, _ | ⟨g, t⟩⟩⟩⟩⟩⟩ <;> simp

/-- C9.  In the alias-accepting hex decoder of `CreateTextureFromPixelData`
(`buffers.go`): `.` decodes to the fully transparent pixel (alpha 0), `@` to
palette index 7, the backquote to palette index 0; the decoded value 15 —
reached by the hex digits `F`/`f` and by the alias `%` — is clamped to the
last palette entry, index 14, so `E`, `F` and `%` all decode to the same
bright-white pixel; and every successfully decoded pixel is either
transparent or a palette entry of index at most 14. -/
theorem pixel_decoding_aliases_and_clamping :
    pixelOfChar '.' = .ok transparent ∧
    pixelOfChar '@' = .ok (palette.getD 7 transparent) ∧
    pixelOfChar (Char.ofNat 96) = .ok (palette.getD 0 transparent) ∧
    pixelOfChar 'F' = .ok (palette.getD 14 transparent) ∧
    pixelOfChar 'f' = .ok (palette.getD 14 transparent) ∧
    pixelOfChar '%' = .ok (palette.getD 14 transparent) ∧
    pixelOfChar 'E' = .ok (palette.getD 14 transparent) ∧
    palette.getD 14 transparent = ⟨255, 255, 255, 255⟩ ∧
    (∀ c col, pixelOfChar c = .ok col →
      col = transparent ∨ ∃ i, i ≤ 14 ∧ col = palette.getD i transparent) := by
  refine ⟨rfl, rfl, rfl, rfl, rfl, rfl, rfl, rfl, ?_⟩
  intro c col h
  unfold pixelOfChar at h
  split_ifs at h with h1
  · injection h with h
    exact Or.inl h.symm
  · cases hx : hexIndexOfChar c with
    | error e => rw [hx] at h; cases h
    | ok idx =>
      rw [hx] at h
      injection h with h
      right
      refine ⟨if idx ≥ palette.length then palette.length - 1 else idx, ?_, h.symm⟩
      have hp : palette.length = 15 := rfl
      split_ifs with h6 <;> omega

/-- C9 witness: the clamping clause applied at the concrete character `F`. -/
theorem pixel_decoding_aliases_and_clamping_witness :
    pixelOfChar 'F' = .ok (palette.getD 14 transparent) ∧
    (palette.getD 14 transparent = transparent ∨
      ∃ i, i ≤ 14 ∧ palette.getD 14 transparent = palette.getD i transparent) := by
  have h := pixel_decoding_aliases_and_clamping
  exact ⟨h.2.2.2.1, h.2.2.2.2.2.2.2.2 'F' _ h.2.2.2.1⟩

/-- C6.  The effective colour rule of `graphics.go`: a base value of 0
(black) is returned unchanged, a nonzero base gains 7 when the bright flag
is set and is returned unchanged otherwise; under the precondition that the
base lies in `[0,7]` the result lies in `[0,14]`; and the same rule applies
independently to ink (`effectiveInkColor`) and paper
(`effectivePaperColor`). -/
theorem effective_color_rule (s : ExecState) :
    (s.defaultInk = 0 → effectiveInkColor s = s.defaultInk) ∧
    (s.defaultInk ≠ 0 → s.defaultBright = true →
      effectiveInkColor s = s.defaultInk + 7) ∧
    (s.defaultInk ≠ 0 → s.defaultBright = false →
      effectiveInkColor s = s.defaultInk) ∧
    (0 ≤ s.defaultInk → s.defaultInk ≤ 7 →
      0 ≤ effectiveInkColor s ∧ effectiveInkColor s ≤ 14) ∧
    (s.defaultPaper = 0 → effectivePaperColor s = s.defaultPaper) ∧
    (s.defaultPaper ≠ 0 → s.defaultBright = true →
      effectivePaperColor s = s.defaultPaper + 7) ∧
    (s.defaultPaper ≠ 0 → s.defaultBright = false →
      effectivePaperColor s = s.defaultPaper) ∧
    (0 ≤ s.defaultPaper → s.defaultPaper ≤ 7 →
      0 ≤ effectivePaperColor s ∧ effectivePaperColor s ≤ 14) := by
  unfold effectiveInkColor effectivePaperColor
  refine ⟨?_, ?_, ?_, ?_, ?_, ?_, ?_, ?_⟩ <;>
    · intros
      split_ifs <;> first | omega | simp_all

/-- C6 witness: the rule evaluated at the initial state (ink 7, paper 0,
bright off). -/
theorem effective_color_rule_witness :
    0 ≤ effectiveInkColor initState ∧ effectiveInkColor initState ≤ 14 :=
  (effective_color_rule initState).2.2.2.1 (by decide) (by decide)

/-- C7.  Parsing `plot 10 10 _` produces the sentinel colour argument `-1`,
and the sentinel is resolved at execution time, not at parse time: executing
the parsed command in any state `s` emits a pixel whose colour index is
`effectiveInkColor s`, the effective ink of the state current at execution —
concretely, executing it after an intervening `ink 2` paints with colour
index 2 rather than with the ink in force at parse time. -/
theorem plot_sentinel_resolved_at_execution :
    parseCommand "plot 10 10 _" = .ok ⟨"plot", [10, 10, -1], "", ""⟩ ∧
    (∀ (monW monH : Int) (s : ExecState),
      processOne monW monH s ⟨"plot", [10, 10, -1], "", ""⟩ =
        (s, [.raster "pixel" [10, 10] (effectiveInkColor s) (eraseActive s)])) ∧
    (processOne 1024 768
        ((processOne 1024 768 initState ⟨"ink", [2], "", ""⟩).1)
        ⟨"plot", [10, 10, -1], "", ""⟩).2 =
      [.raster "pixel" [10, 10] 2 false] := by
  exact ⟨rfl, fun monW monH s => rfl, rfl⟩

/-- C2.  With the command queue at its capacity of 100, a reader's push of a
freshly parsed command (`commandChan <- cmd`) blocks the reader goroutine:
no server-busy reply is written, the command is not dropped, and the queue
is unchanged — contrary to the documented non-blocking/`ERROR 0033` backpressure
behaviour.  Evaluated at the concrete full queue of 100 `cls` commands. -/
theorem full_queue_blocks_reader :
    handleLine (List.replicate 100 ⟨"cls", [], "", ""⟩) "cls" =
      (List.replicate 100 ⟨"cls", [], "", ""⟩, .blocked) := by
  rfl

/-- C1.  The `"set"` case of `handleTexCommand` evaluated at a pool whose
slot 0 is the only slot in use (holding a 1×1 black buffer): with the
invalid payload `G` the command fails *and erases slot 0* (the pool is not
left unchanged); with the valid payload `5` the new buffer is installed in
the first *free* slot 1 — slot 1 is reported back and slot 0 keeps its old
entry, so the slot index is not preserved.  In addition, the in-place
updater `updateTextureFromPixelData` accepts a slot that is *not in use*
(filling it without any error), instead of failing on it. -/
theorem tex_set_not_atomic_and_misplaces_buffer :
    (handleTexCommandSet
        ((⟨[⟨0, 0, 0, 255⟩], 1, 1, true⟩ : TextureEntry) ::
          List.replicate 255 emptyEntry) [0, 1, 1] "G" =
      (.error "invalid character - must be hex digit or one of the aliases",
       emptyEntry :: List.replicate 255 emptyEntry)) ∧
    (handleTexCommandSet
        ((⟨[⟨0, 0, 0, 255⟩], 1, 1, true⟩ : TextureEntry) ::
          List.replicate 255 emptyEntry) [0, 1, 1] "5" =
      (.ok 1,
       (⟨[⟨0, 0, 0, 255⟩], 1, 1, true⟩ : TextureEntry) ::
         (⟨[⟨0, 205, 205, 255⟩], 1, 1, true⟩ : TextureEntry) ::
           List.replicate 254 emptyEntry)) ∧
    (updateTextureFromPixelData (List.replicate 256 emptyEntry) 0 "5" 1 1 =
      some (.ok ((⟨[⟨0, 205, 205, 255⟩], 1, 1, true⟩ : TextureEntry) ::
        List.replicate 255 emptyEntry))) := by
  refine ⟨?_, ?_, ?_⟩ <;> (set_option maxRecDepth 4000 in rfl)

/-- C4 counterexample: the line `ink ?` — whose last token is `?` — parses
to a `Mode = "query"` command which the reader *does* push onto the command
queue: starting from the empty queue, processing the line leaves the queue
holding that command, so the queue contents are not unchanged and the query
is not resolved at the codec layer. -/
theorem query_line_is_enqueued :
    parseCommand "ink ?" = .ok ⟨"ink", [], "query", ""⟩ ∧
    handleLine [] "ink ?" = ([⟨"ink", [], "query", ""⟩], .enqueued) ∧
    ([⟨"ink", [], "query", ""⟩] : List DrawCommand) ≠ [] := by
  exact ⟨rfl, rfl, by simp⟩

/-- C4 (amended).  A line whose last token is `?` parses to a
`Mode = "query"` command that is enqueued like any other command (when the
queue has room); the *executor* answers it on dequeue by reading the
process-wide state and emitting exactly one response line, leaving the
whole server state unchanged. -/
theorem query_answered_by_executor_state_unchanged :
    (∀ (monW monH : Int) (s : ExecState) (c : DrawCommand), c.Mode = "query" →
      processOne monW monH s c = (s, [.reply (processQuery s c.Cmd)])) ∧
    (∀ (q : List DrawCommand) (line : String) (c : DrawCommand),
      parseCommand line = .ok c → q.length < commandChanCapacity →
      handleLine q line = (q ++ [c], .enqueued)) := by
  constructor
  · intro monW monH s c h
    unfold processOne
    rw [if_pos h]
  · intro q line c hparse hlen
    unfold handleLine
    rw [hparse]
    dsimp only
    rw [if_pos hlen]

/-- C4 witness: the amended claim applied to the parsed `ink ?` at the
initial state and the empty queue. -/
theorem query_answered_by_executor_state_unchanged_witness :
    processOne 1024 768 initState ⟨"ink", [], "query", ""⟩ =
      (initState, [.reply (processQuery initState "ink")]) ∧
    handleLine [] "ink ?" = ([] ++ [⟨"ink", [], "query", ""⟩], .enqueued) :=
  ⟨query_answered_by_executor_state_unchanged.1 1024 768 initState
      ⟨"ink", [], "query", ""⟩ rfl,
   query_answered_by_executor_state_unchanged.2 [] "ink ?"
      ⟨"ink", [], "query", ""⟩ rfl (by decide)⟩

/-- C5 counterexample: `ink 99` is parseable and the executor stores 99
into the ink state without any range check, so the claimed invariant
`ink ∈ [0,7]` is not preserved by every command. -/
theorem ink_99_breaks_color_invariant :
    (processOne 1024 768 initState ⟨"ink", [99], "", ""⟩).1.defaultInk = 99 ∧
    ¬ ((processOne 1024 768 initState ⟨"ink", [99], "", ""⟩).1.defaultInk ≤ 7) := by
  exact ⟨rfl, by decide⟩

/-- C5 (amended).  The predicates `ink ∈ [0,7]` and `paper ∈ [0,7]` hold in
the initial state; `ink`, `paper` and `colour` store their arguments
*without validation*, so the predicates are preserved by a command only
under the hypothesis that its colour arguments are already in range (all
other commands preserve them unconditionally); and whenever the predicates
hold, both effective palette indices lie in the 15-entry range `[0,14]`. -/
theorem color_invariant_conditional :
    ColorInv initState ∧
    (∀ (monW monH : Int) (s : ExecState) (c : DrawCommand),
      ColorInv s → colorArgsInRange c → ColorInv (processOne monW monH s c).1) ∧
    (∀ s : ExecState, ColorInv s →
      0 ≤ effectiveInkColor s ∧ effectiveInkColor s ≤ 14 ∧
      0 ≤ effectivePaperColor s ∧ effectivePaperColor s ≤ 14) := by
  refine ⟨by constructor <;> decide, ?_, ?_⟩
  · intro monW monH s c hinv hargs
    obtain ⟨hink, hpaper, hcolour⟩ := hargs
    obtain ⟨cmd, params, mode, str⟩ := c
    unfold processOne
    dsimp only at hink hpaper hcolour ⊢
    by_cases hq : mode = "query"
    · rw [if_pos hq]; exact hinv
    rw [if_neg hq]
    by_cases h1 : cmd = "cls"
    · rw [if_pos h1]
      unfold handleCLS
      split_ifs <;> exact hinv
    rw [if_neg h1]
    by_cases h2 : cmd = "flip"
    · rw [if_pos h2]
      exact hinv.of_eq (handleFlip_colorFields s params).1
        (handleFlip_colorFields s params).2
    rw [if_neg h2]
    by_cases h3 : cmd = "layer"
    · rw [if_pos h3]
      exact hinv.of_eq (handleLayer_colorFields s params).1
        (handleLayer_colorFields s params).2
    rw [if_neg h3]
    by_cases h4 : cmd = "paint"
    · rw [if_pos h4]
      exact hinv.of_eq (handlePaint_colorFields s mode).1
        (handlePaint_colorFields s mode).2
    rw [if_neg h4]
    by_cases h5 : cmd = "paint_target"
    · rw [if_pos h5]
      exact hinv.of_eq (handlePaintTarget_colorFields s mode).1
        (handlePaintTarget_colorFields s mode).2
    rw [if_neg h5]
    by_cases h6 : cmd = "paint_copy"
    · rw [if_pos h6]
      unfold handlePaintCopy
      dsimp only
      split_ifs <;> exact hinv
    rw [if_neg h6]
    by_cases h7 : cmd = "ink"
    · rw [if_pos h7]
      rcases hp : params with _ | ⟨n, _ | ⟨m, t⟩⟩ <;> dsimp only
      · exact hinv
      · have := hink h7 n hp
        exact ⟨this.1, this.2, hinv.2.2⟩
      · exact hinv
    rw [if_neg h7]
    by_cases h8 : cmd = "paper"
    · rw [if_pos h8]
      rcases hp : params with _ | ⟨n, _ | ⟨m, t⟩⟩ <;> dsimp only
      · exact hinv
      · have := hpaper h8 n hp
        exact ⟨hinv.1, hinv.2.1, this.1, this.2⟩
      · exact hinv
    rw [if_neg h8]
    by_cases h9 : cmd = "bright"
    · rw [if_pos h9]
      rcases hp : params with _ | ⟨n, _ | ⟨m, t⟩⟩ <;> dsimp only <;> exact hinv
    rw [if_neg h9]
    by_cases h10 : cmd = "colour"
    · rw [if_pos h10]
      rcases hp : params with _ | ⟨i, _ | ⟨p, _ | ⟨b, _ | ⟨d, t⟩⟩⟩⟩ <;> dsimp only
      · exact hinv
      · exact hinv
      · exact hinv
      · have := hcolour h10 i p b hp
        exact ⟨this.1, this.2.1, this.2.2.1, this.2.2.2⟩
      · exact hinv
    rw [if_neg h10]
    by_cases h11 : cmd = "graphics"
    · rw [if_pos h11]
      exact hinv.of_eq (handleGraphics_colorFields s params).1
        (handleGraphics_colorFields s params).2
    rw [if_neg h11]
    by_cases h12 : cmd = "zoom"
    · rw [if_pos h12]
      exact hinv.of_eq (handleZoom_colorFields s monW monH params).1
        (handleZoom_colorFields s monW monH params).2
    rw [if_neg h12]
    by_cases h13 : cmd = "eraser"
    · rw [if_pos h13]
      split_ifs <;> exact hinv
    rw [if_neg h13]
    by_cases h14 : cmd = "tex"
    · rw [if_pos h14]
      rcases handleTexCommand s.textures mode params str with ⟨r, pool2, outs⟩
      exact hinv
    rw [if_neg h14]
    exact hinv.of_eq (updateActiveBuffer_colorFields s ⟨cmd, params, mode, str⟩).1
      (updateActiveBuffer_colorFields s ⟨cmd, params, mode, str⟩).2
  · intro s h
    obtain ⟨hi1, hi2, hp1, hp2⟩ := h
    unfold effectiveInkColor effectivePaperColor
    split_ifs <;> omega

/-- C5 witness: the amended preservation clause applied to `ink 3` at the
initial state. -/
theorem color_invariant_conditional_witness :
    ColorInv (processOne 1024 768 initState ⟨"ink", [3], "", ""⟩).1 := by
  apply color_invariant_conditional.2.1 1024 768 initState ⟨"ink", [3], "", ""⟩
  · constructor <;> decide
  · refine ⟨?_, ?_, ?_⟩
    · intro _ n hn
      cases hn
      constructor <;> decide
    · intro h
      exact absurd h (by decide)
    · intro h
      exact absurd h (by decide)

/-- C10.  When the current drawing mode is `layer`, executing `ink n` (one
argument) stores `n` as the default ink and resets `eraserMode` to false;
`colour i p b` likewise resets it; and `paint flip` also resets it — so
after any of these, eraser drawing is disabled. -/
theorem ink_colour_paint_reset_eraser (monW monH : Int) (s : ExecState)
    (n i p b : Int) (h : s.currentDrawingMode = "layer") :
    (processOne monW monH s ⟨"ink", [n], "", ""⟩).1.eraserMode = false ∧
    (processOne monW monH s ⟨"ink", [n], "", ""⟩).1.defaultInk = n ∧
    (processOne monW monH s ⟨"colour", [i, p, b], "", ""⟩).1.eraserMode = false ∧
    (processOne monW monH s ⟨"paint", [], "flip", ""⟩).1.eraserMode = false := by
  refine ⟨?_, rfl, ?_, rfl⟩ <;> simp [processOne, h]

/-- C10 witness: the eraser resets evaluated in a concrete layer-mode state
with the eraser on. -/
theorem ink_colour_paint_reset_eraser_witness :
    (processOne 1024 768
        { initState with currentDrawingMode := "layer", eraserMode := true }
        ⟨"ink", [3], "", ""⟩).1.eraserMode = false :=
  (ink_colour_paint_reset_eraser 1024 768
    { initState with currentDrawingMode := "layer", eraserMode := true }
    3 1 2 1 rfl).1

/-- The parallel-assignment swap preserves the array length. -/
theorem listSwap_length (l : List Surface) (i j : Nat) :
    (listSwap l i j).length = l.length := by
  simp [listSwap]

/-- Pointwise description of `listSwap l 0 k`: position 0 receives the old
entry `k`, position `k` the old entry 0, and every other position is
untouched. -/
theorem listSwap_getElem? (l : List Surface) (k : Nat) (hk : k < l.length) :
    (listSwap l 0 k)[k]? = l[0]? ∧
    (listSwap l 0 k)[0]? = l[k]? ∧
    ∀ i : Nat, i ≠ 0 → i ≠ k → (listSwap l 0 k)[i]? = l[i]? := by
  have h0 : 0 < l.length := Nat.lt_of_le_of_lt (Nat.zero_le k) hk
  have hset : k < (l.set 0 (l.getD k [])).length := by simpa using hk
  have hgd0 : l.getD 0 [] = l.get ⟨0, h0⟩ := by
    rw [List.getD_eq_getElem?_getD, List.getElem?_eq_getElem h0]
    rfl
  have hgdk : l.getD k [] = l.get ⟨k, hk⟩ := by
    rw [List.getD_eq_getElem?_getD, List.getElem?_eq_getElem hk]
    rfl
  refine ⟨?_, ?_, ?_⟩
  · unfold listSwap
    rw [List.getElem?_set_self hset, hgd0, List.getElem?_eq_getElem h0]
    rfl
  · unfold listSwap
    by_cases hk0 : k = 0
    · subst hk0
      rw [List.getElem?_set_self (by simpa using h0), hgd0,
        List.getElem?_eq_getElem h0]
      rfl
    · rw [List.getElem?_set_ne (Ne.symm (fun h => hk0 h.symm)),
        List.getElem?_set_self h0, hgdk, List.getElem?_eq_getElem hk]
      rfl
  · intro i hi0 hik
    unfold listSwap
    rw [List.getElem?_set_ne (Ne.symm hik), List.getElem?_set_ne (Ne.symm hi0)]

/-- Swapping position `k` with position 0 twice restores the array. -/
theorem listSwap_involution (l : List Surface) (k : Nat) (hk : k < l.length) :
    listSwap (listSwap l 0 k) 0 k = l := by
  have hk2 : k < (listSwap l 0 k).length := by
    rw [listSwap_length]
    exact hk
  obtain ⟨g1, g2, g3⟩ := listSwap_getElem? l k hk
  obtain ⟨f1, f2, f3⟩ := listSwap_getElem? (listSwap l 0 k) k hk2
  apply List.ext_getElem?
  intro i
  by_cases hi0 : i = 0
  · subst hi0
    rw [f2, g1]
  by_cases hik : i = k
  · subst hik
    rw [f1, g2]
  · rw [f3 i hi0 hik, g3 i hi0 hik]

/-- C3.  Executing `flip n` (via `BufferSystem.SwapFlip`, the
`swapToVisible` of the spec) for `n ∈ [1,7]` on an 8-surface flip set
exchanges flip surface `n` with flip surface 0 — the visible surface — so
executing it twice in succession restores the original surface set (the
operation is an involution); index 0, a negative index, and an index beyond
7 are all rejected with an error. -/
theorem flip_swap_involution (bs : BufferSystem) (n : Int)
    (h8 : bs.flipBuffers.length = 8) :
    (1 ≤ n → n ≤ 7 →
      ∃ bs2, execFlipN bs n = .ok bs2 ∧
        bs2.flipBuffers[0]? = bs.flipBuffers[n.toNat]? ∧
        bs2.flipBuffers[n.toNat]? = bs.flipBuffers[0]? ∧
        (∀ i : Nat, i ≠ 0 → i ≠ n.toNat →
          bs2.flipBuffers[i]? = bs.flipBuffers[i]?) ∧
        execFlipN bs2 n = .ok bs) ∧
    execFlipN bs 0 = .error "invalid buffer index" ∧
    (∀ m : Int, m < 1 ∨ 8 ≤ m → execFlipN bs m = .error "invalid buffer index") := by
  have hlenInt : (bs.flipBuffers.length : Int) = 8 := by
    rw [h8]
    rfl
  refine ⟨?_, ?_, ?_⟩
  · intro hn1 hn7
    have hkn : n.toNat < bs.flipBuffers.length := by omega
    obtain ⟨g1, g2, g3⟩ := listSwap_getElem? bs.flipBuffers n.toNat hkn
    refine ⟨{ bs with flipBuffers := listSwap bs.flipBuffers 0 n.toNat },
      ?_, g2, g1, g3, ?_⟩
    · unfold execFlipN SwapFlip
      rw [if_neg (by omega)]
    · unfold execFlipN SwapFlip
      rw [if_neg (by rw [listSwap_length]; omega)]
      rw [listSwap_involution bs.flipBuffers n.toNat hkn]
  · unfold execFlipN SwapFlip
    rw [if_pos (Or.inl (by norm_num))]
  · intro m hm
    unfold execFlipN SwapFlip
    rw [if_pos (by omega)]

/-- C3 witness: the swap and its involution evaluated at a concrete
8-surface buffer system and index 3. -/
theorem flip_swap_involution_witness :
    ∃ bs2,
      execFlipN ⟨[[⟨0, 0, 0, 0⟩], [⟨1, 0, 0, 0⟩], [⟨2, 0, 0, 0⟩], [⟨3, 0, 0, 0⟩],
        [⟨4, 0, 0, 0⟩], [⟨5, 0, 0, 0⟩], [⟨6, 0, 0, 0⟩], [⟨7, 0, 0, 0⟩]], [], 0⟩ 3 =
        .ok bs2 ∧
      execFlipN bs2 3 =
        .ok ⟨[[⟨0, 0, 0, 0⟩], [⟨1, 0, 0, 0⟩], [⟨2, 0, 0, 0⟩], [⟨3, 0, 0, 0⟩],
          [⟨4, 0, 0, 0⟩], [⟨5, 0, 0, 0⟩], [⟨6, 0, 0, 0⟩], [⟨7, 0, 0, 0⟩]], [], 0⟩ := by
  obtain ⟨bs2, h1, _, _, _, h5⟩ :=
    (flip_swap_involution
      ⟨[[⟨0, 0, 0, 0⟩], [⟨1, 0, 0, 0⟩], [⟨2, 0, 0, 0⟩], [⟨3, 0, 0, 0⟩],
        [⟨4, 0, 0, 0⟩], [⟨5, 0, 0, 0⟩], [⟨6, 0, 0, 0⟩], [⟨7, 0, 0, 0⟩]], [], 0⟩
      3 rfl).1 (by norm_num) (by norm_num)
  exact ⟨bs2, h1, h5⟩

/-- The free-slot scan steps over an in-use head entry. -/
theorem findFreeAux_used (e : TextureEntry) (rest : List TextureEntry) (i : Nat)
    (h : e.inUse = true) : findFreeAux (e :: rest) i = findFreeAux rest (i + 1) := by
  simp [findFreeAux, h]

/-- The free-slot scan stops at a free head entry. -/
theorem findFreeAux_free (e : TextureEntry) (rest : List TextureEntry) (i : Nat)
    (h : e.inUse = false) : findFreeAux (e :: rest) i = Int.ofNat i := by
  simp [findFreeAux, h]

/-- C8.  Lowest-free-index allocation: in any 256-slot pool whose slots 0–5
are all in use, `tex del 5` succeeds, the first free slot of the resulting
pool is 5 again, and an immediately following successful `tex add` installs
the new buffer in slot 5 and reports `5` back to the client. -/
theorem tex_delete_then_add_reuses_slot_5
    (pool : List TextureEntry) (payload : String) (w h : Int) (imgData : List Color)
    (hlen : pool.length = 256)
    (huse : ∀ i : Nat, i ≤ 5 → (pool.getD i emptyEntry).inUse = true)
    (hdecode : createTextureFromPixelData payload w h = .ok imgData) :
    ∃ pool2, deleteTexture pool 5 = .ok pool2 ∧
      findFirstFreeTextureSlot pool2 = Int.ofNat 5 ∧
      handleTexAdd pool2 [w, h] payload =
        ([.reply "5"], pool2.set 5 ⟨imgData, w, h, true⟩) ∧
      (pool2.set 5 ⟨imgData, w, h, true⟩).getD 5 emptyEntry =
        ⟨imgData, w, h, true⟩ := by
  rcases pool with _ | ⟨e0, p⟩
  · simp at hlen
  rcases p with _ | ⟨e1, p⟩
  · simp at hlen
  rcases p with _ | ⟨e2, p⟩
  · simp at hlen
  rcases p with _ | ⟨e3, p⟩
  · simp at hlen
  rcases p with _ | ⟨e4, p⟩
  · simp at hlen
  rcases p with _ | ⟨e5, rest⟩
  · simp at hlen
  have u0 : e0.inUse = true := by simpa using huse 0 (by omega)
  have u1 : e1.inUse = true := by simpa using huse 1 (by omega)
  have u2 : e2.inUse = true := by simpa using huse 2 (by omega)
  have u3 : e3.inUse = true := by simpa using huse 3 (by omega)
  have u4 : e4.inUse = true := by simpa using huse 4 (by omega)
  have u5 : e5.inUse = true := by simpa using huse 5 (by omega)
  have hlen6 : (e0 :: e1 :: e2 :: e3 :: e4 :: e5 :: rest).length = 256 := hlen
  have hfree : findFirstFreeTextureSlot
      (e0 :: e1 :: e2 :: e3 :: e4 :: emptyEntry :: rest) = Int.ofNat 5 := by
    unfold findFirstFreeTextureSlot
    rw [findFreeAux_used e0 _ 0 u0, findFreeAux_used e1 _ 1 u1,
      findFreeAux_used e2 _ 2 u2, findFreeAux_used e3 _ 3 u3,
      findFreeAux_used e4 _ 4 u4, findFreeAux_free emptyEntry rest 5 rfl]
  refine ⟨e0 :: e1 :: e2 :: e3 :: e4 :: emptyEntry :: rest, ?_, hfree, ?_, by simp⟩
  · unfold deleteTexture
    rw [if_neg (by simp only [List.length_cons] at hlen ⊢; omega)]
    rw [if_neg (by simpa using u5)]
    rfl
  · unfold handleTexAdd
    dsimp only
    rw [hfree]
    dsimp only
    rw [hdecode]
    rfl

/-- C8 witness: the delete-then-add slot reuse on the concrete pool whose
first six slots hold a 1×1 black texture, with the one-pixel payload `0`. -/
theorem tex_delete_then_add_reuses_slot_5_witness :
    ∃ pool2,
      deleteTexture (List.replicate 6 (⟨[⟨0, 0, 0, 255⟩], 1, 1, true⟩ : TextureEntry) ++
        List.replicate 250 emptyEntry) 5 = .ok pool2 ∧
      findFirstFreeTextureSlot pool2 = Int.ofNat 5 ∧
      handleTexAdd pool2 [1, 1] "0" =
        ([.reply "5"], pool2.set 5 ⟨[⟨0, 0, 0, 255⟩], 1, 1, true⟩) ∧
      (pool2.set 5 ⟨[⟨0, 0, 0, 255⟩], 1, 1, true⟩).getD 5 emptyEntry =
        ⟨[⟨0, 0, 0, 255⟩], 1, 1, true⟩ :=
  tex_delete_then_add_reuses_slot_5
    (List.replicate 6 (⟨[⟨0, 0, 0, 255⟩], 1, 1, true⟩ : TextureEntry) ++
      List.replicate 250 emptyEntry) "0" 1 1 [⟨0, 0, 0, 255⟩]
    (by rw [List.length_append, List.length_replicate, List.length_replicate])
    (by decide) rfl

end Zxvdu
